import Mathlib

/-!
# Verification of `bcbio/variation/coverage.py`

A shallow embedding of the coverage classification and depth-computation
orchestration engine of `bcbio/variation/coverage.py`, together with proofs
of the specified properties.

Modelling conventions:
* Python dictionaries / YAML mappings are association lists.
* The filesystem is an association list from path to a file entry carrying a
  modification time (`Nat`) and a content value; components that never look
  at content use `Unit` content.
* Python floats are modelled as exact rationals (`ℚ`); the numeric policy of
  the source (threshold comparisons, ratios) involves no float values for
  which exactness matters at the claim boundaries.
* External collaborators declared out of scope by the design (pybedtools
  total_coverage, reference contig enumeration, read counting, the mosdepth
  binary itself) are oracle parameters of the embedding environment.
* Helpers of this repository that live outside the provided source file
  (`utils.file_uptodate`, `file_transaction`, `utils.splitext_plus`) are
  modelled from the spec, as flagged in their doc comments.
-/

set_option autoImplicit false

namespace Coverage

/-- Python truthiness of an optional string: `None` and `""` are falsy. -/
def pyTruthy : Option String → Bool
  | none => false
  | some s => !(s = "")

/-- Python `a or b` on optional strings (used for
`dd.get_align_bam(data) or dd.get_work_bam(data)`). -/
def pyOr (a b : Option String) : Option String :=
  if pyTruthy a then a else b

/-- A file entry: modification time plus content. -/
structure FileEnt (α : Type) where
  mtime : Nat
  content : α
deriving DecidableEq

/-- A filesystem namespace: association list from path to file entry. -/
abbrev FS (α : Type) := List (String × FileEnt α)

/-- Lookup a path in the filesystem. -/
def lookupFS {α : Type} : FS α → String → Option (FileEnt α)
  | [], _ => none
  | (q, e) :: rest, p => if q = p then some e else lookupFS rest p

/-- Write a path in the filesystem (overwrite in place, else append). -/
def setFS {α : Type} : FS α → String → FileEnt α → FS α
  | [], p, e => [(p, e)]
  | (q, u) :: rest, p, e => if q = p then (q, e) :: rest else (q, u) :: setFS rest p e

/-- Modelled from the spec: `utils.file_uptodate` (in `bcbio/utils.py`, not
part of the provided source). "Fresh" means the artifact exists and its
modification time is not older than the dependency's modification time
(spec §3 Invariant and Glossary "Freshness"). -/
def file_uptodate {α : Type} (fs : FS α) (fname cmp_fname : String) : Bool :=
  match lookupFS fs fname, lookupFS fs cmp_fname with
  | some a, some b => decide (b.mtime ≤ a.mtime)
  | _, _ => false

/-! ## Interval Classifier (`assign_interval`, `_count_offtarget`) -/

/-- `GENOME_COV_THRESH = 0.40` (source line 27); the float literal is exact
here as a rational. -/
def GENOME_COV_THRESH : ℚ := 40 / 100

/-- `OFFTARGET_THRESH = 0.01` (source line 28). -/
def OFFTARGET_THRESH : ℚ := 1 / 100

/-- `DEPTH_THRESHOLDS` (source line 29). -/
def DEPTH_THRESHOLDS : List Int := [1, 5, 10, 20, 50, 100, 250, 500, 1000, 5000, 10000, 50000]

/-- Embedding of `_count_offtarget` (source lines 67-74).  The two
`readstats.number_of_mapped_reads` calls (an external collaborator, spec §1)
are passed as the parameters `mapped_unique` and `ontarget`; the body is the
source's guard and ratio: `float(mapped_unique - ontarget) / mapped_unique`
when `mapped_unique` is truthy (nonzero), else `0.0`. -/
def _count_offtarget (mapped_unique ontarget : Nat) : ℚ :=
  if mapped_unique ≠ 0 then
    ((mapped_unique : ℚ) - (ontarget : ℚ)) / (mapped_unique : ℚ)
  else 0

/-- The read-only per-sample facts `assign_interval` consults through its
external collaborators (`dd` getters, pybedtools, `ref.file_contigs`,
`readstats`), gathered into an environment.  `reads none` is the unrestricted
mapped-unique count, `reads (some bed)` the count restricted to `bed`. -/
structure ClassifyEnv where
  vrs : Option String
  callable_file : String
  total_coverage : String → Nat
  contig_sizes : List Nat
  reads : Option String → Nat
  sample : String

/-- The sample data mapping, narrowed to the one slot `assign_interval`
writes (`data["config"]["algorithm"]["coverage_interval"]`); `rest` stands
for every other key of the mapping, untouched by the classifier. -/
structure CovData (α : Type) where
  coverage_interval : Option String
  rest : α
deriving DecidableEq

/-- `callable_size` of `assign_interval` (source lines 43-46). -/
def callableSize (env : ClassifyEnv) : Nat :=
  if pyTruthy env.vrs then env.total_coverage (env.vrs.getD "")
  else env.total_coverage env.callable_file

/-- `total_size` of `assign_interval` (source line 47). -/
def totalSize (env : ClassifyEnv) : Nat :=
  env.contig_sizes.sum

/-- `genome_cov_pct = callable_size / float(total_size)` (source line 48).
In the source a zero `total_size` raises `ZeroDivisionError` (spec §4.1 calls
it a fatal precondition violation); here `ℚ` division by zero yields `0`, and
the theorems assume `0 < totalSize`. -/
def genomeCovPct (env : ClassifyEnv) : ℚ :=
  (callableSize env : ℚ) / (totalSize env : ℚ)

/-- The bed file handed to `_count_offtarget` (source line 57:
`vrs or callable_file`). -/
def offtargetBed (env : ClassifyEnv) : String :=
  if pyTruthy env.vrs then env.vrs.getD "" else env.callable_file

/-- Result of `assign_interval`: the (possibly updated) data mapping, the
`logger.info` records emitted (sample, label, genome pct, offtarget pct), and
whether off-target read counting was triggered. -/
structure AssignResult (α : Type) where
  data : CovData α
  logs : List (String × String × ℚ × ℚ)
  counted_reads : Bool
deriving DecidableEq

/-- Embedding of `assign_interval` (source lines 32-65): when
`coverage_interval` is not already set (Python truthiness), classify into
genome / regional / amplicon by the thresholds, log, and write the label into
the data mapping; otherwise return the data unchanged. -/
def assign_interval {α : Type} (env : ClassifyEnv) (data : CovData α) : AssignResult α :=
  if !(pyTruthy data.coverage_interval) then
    let genome_cov_pct := genomeCovPct env
    let res :=
      if genome_cov_pct > GENOME_COV_THRESH then
        ("genome", (0 : ℚ), false)
      else if !(pyTruthy env.vrs) then
        ("regional", (0 : ℚ), false)
      else
        let offtarget_pct := _count_offtarget (env.reads none) (env.reads (some (offtargetBed env)))
        (if offtarget_pct > OFFTARGET_THRESH then "regional" else "amplicon", offtarget_pct, true)
    { data := { data with coverage_interval := some res.1 }
      logs := [(env.sample, res.1, genome_cov_pct, res.2.1)]
      counted_reads := res.2.2 }
  else
    { data := data, logs := [], counted_reads := false }

/-! ## Percentile Aggregator (`_calculate_percentiles`) -/

/-- A parsed line of a distribution file (`contig count pct`, source line
213).  The source keeps `count` and `pct` as strings and converts them only
inside the `contig == "total"` branch; here lines are pre-parsed to their
numeric denotations and the conversion point is tracked by the scan state. -/
structure DistLine where
  contig : String
  count : Int
  pct : ℚ
deriving DecidableEq

/-- An emitted summary row `(cutoff_reads, bases_pct, sample)`. -/
structure Row where
  label : String
  pct : ℚ
  sample : String
deriving DecidableEq

/-- Python's `"%.1f" % x` one-decimal formatting, modelled on exact
rationals as rounding to the nearest tenth (half up); the binary-float tie
behaviour of the source is immaterial at the values the claims touch. -/
def pyRound1 (x : ℚ) : ℚ :=
  (⌊x * 10 + 1 / 2⌋ : ℚ) / 10

/-- Scan state after processing one line: whether that line was a `total`
row (so `count` was converted to `int` and `pct` formatted, source lines
215-216), together with its count and pct values.  A `false` flag records
that `count`/`pct` were left as raw strings. -/
abbrev ScanState := Option (Bool × Int × ℚ)

/-- One iteration of the `for line in in_handle` loop of
`_calculate_percentiles` (source lines 212-218). -/
def percentileStep (mn mx : Int) (sample : String) (acc : List Row × ScanState)
    (line : DistLine) : List Row × ScanState :=
  if line.contig = "total" then
    let c := line.count
    let p := pyRound1 (line.pct * 100)
    let rows := if mn ≤ c ∧ c ≤ mx then
        acc.1 ++ [{ label := "percentage" ++ toString c, pct := p, sample := sample }]
      else acc.1
    (rows, some (true, c, p))
  else
    (acc.1, some (false, line.count, line.pct))

/-- Embedding of the row production of `_calculate_percentiles` (source
lines 195-220): scan the distribution lines, emitting one row per in-range
`total` row, then evaluate `if min(cutoffs) < count` on the loop-leftover
`count` binding.  Errors of the source are surfaced: `min`/`max` of an empty
cutoff list raise `ValueError`; an empty file leaves `count` unbound
(`NameError`); a final non-`total` line leaves `count` a string, so comparing
it with an int raises `TypeError`. -/
def calculate_percentiles_rows (lines : List DistLine) (cutoffs : List Int)
    (sample : String) : Except String (List Row) :=
  match cutoffs with
  | [] => Except.error "ValueError"
  | c :: cs =>
    let mn := cs.foldl min c
    let mx := cs.foldl max c
    let scanned := lines.foldl (percentileStep mn mx sample) ([], none)
    match scanned.2 with
    | none => Except.error "NameError"
    | some (false, _, _) => Except.error "TypeError"
    | some (true, cnt, p) =>
      Except.ok (scanned.1 ++
        (if mn < cnt then [{ label := "percentage" ++ toString mn, pct := p, sample := sample }] else []))

/-- The rows contributed by one line: one row when it is a `total` line with
count within `[mn, mx]`, none otherwise. -/
def rowsOf (mn mx : Int) (sample : String) (l : DistLine) : List Row :=
  if l.contig = "total" ∧ mn ≤ l.count ∧ l.count ≤ mx then
    [{ label := "percentage" ++ toString l.count, pct := pyRound1 (l.pct * 100), sample := sample }]
  else []

/-- The in-range rows of the scan, stated directly: one row per `total` line
whose count lies within `[mn, mx]`, in file order. -/
def inRangeRows (mn mx : Int) (sample : String) : List DistLine → List Row
  | [] => []
  | l :: rest => rowsOf mn mx sample l ++ inRangeRows mn mx sample rest

/-- The scan state a line leaves behind: converted values for a `total`
line, raw ones otherwise. -/
def lineState (l : DistLine) : Bool × Int × ℚ :=
  if l.contig = "total" then (true, l.count, pyRound1 (l.pct * 100)) else (false, l.count, l.pct)

/-- The amended boundary behaviour, stated from the amended claim's words:
the extra floor row is governed by the LAST line of the file (which must be a
`total` row for the function to succeed), not by the smallest-count `total`
row; it carries that last row's formatted pct. -/
def percentilesAmendedSpec (lines : List DistLine) (cutoffs : List Int)
    (sample : String) : Except String (List Row) :=
  match cutoffs with
  | [] => Except.error "ValueError"
  | c :: cs =>
    let mn := cs.foldl min c
    let mx := cs.foldl max c
    match lines.getLast? with
    | none => Except.error "NameError"
    | some last =>
      if last.contig = "total" then
        Except.ok (inRangeRows mn mx sample lines ++
          (if mn < last.count then
            [{ label := "percentage" ++ toString mn, pct := pyRound1 (last.pct * 100), sample := sample }]
           else []))
      else Except.error "TypeError"

/-! ## Region-based average coverage (`_average_bed_coverage`) -/

/-- A parsed non-comment line of a region-depth artifact: tab-delimited
`contig start end ... depth`; only fields 1, 2 and the last are read
(source lines 188-190). -/
structure BedRow where
  start : Int
  stop : Int
  depth : ℚ
deriving DecidableEq

/-- Embedding of the accumulation of `_average_bed_coverage` (source lines
181-193) over the parsed non-comment lines: weighted depths
`float(line_tokens[-1]) * size` with `size = end - start`, and the average
`sum(avg_covs) / total_len if total_len > 0 else 0`. -/
def _average_bed_coverage (rows : List BedRow) : ℚ :=
  let avg_covs := rows.map (fun r => r.depth * ((r.stop - r.start : Int) : ℚ))
  let total_len : Int := rows.foldl (fun acc r => acc + (r.stop - r.start)) 0
  if 0 < total_len then avg_covs.sum / ((total_len : Int) : ℚ) else 0

/-! ## Depth Orchestrator (`run_mosdepth`, `calculate`) -/

/-- The structured mosdepth command line assembled at source lines 253-265:
`mosdepth -t cores -F 1804 [-Q 1] [--no-per-base] [--by bed] [--quantize q]
tx_prefix bam [-T thresholds]`. -/
structure MosdepthCmd where
  threads : Nat
  filterFlag : Nat
  mapq : Option Nat
  noPerBase : Bool
  byBed : Option String
  quantizeArg : Option String
  thresholdArg : List Int
  bam : String
  targetName : String
deriving DecidableEq

/-- The `MosdepthCov` namedtuple of deterministic artifact paths (source
lines 241-249). -/
structure MosdepthCov where
  dist : String
  per_base : Option String
  regions : Option String
  quantize : Option String
  thresholds : Option String
deriving DecidableEq

/-- Per-sample facts `run_mosdepth` draws from `data` via `dd` getters,
plus the modelling of the one external effect: whether the mosdepth process
exits successfully (`toolOk`) and the timestamp `now` given to files written
by this invocation. -/
structure MosConfig where
  work_dir : String
  sample : String
  align_bam : Option String
  work_bam : Option String
  cores : Nat
  toolOk : Bool
  now : Nat
deriving DecidableEq

/-- `bam_file = dd.get_align_bam(data) or dd.get_work_bam(data)`
(source line 242). -/
def mosBam (cfg : MosConfig) : String :=
  (pyOr cfg.align_bam cfg.work_bam).getD ""

/-- The deterministic artifact prefix
`work_dir/coverage/<sample>/<sample>-<target>` (source lines 243-244). -/
def mosPrefix (cfg : MosConfig) (target_name : String) : String :=
  cfg.work_dir ++ "/coverage/" ++ cfg.sample ++ "/" ++ cfg.sample ++ "-" ++ target_name

/-- The `MosdepthCov` output bundle of `run_mosdepth` (source lines
245-249): each optional path present iff the corresponding input was
supplied (Python truthiness for `bed_file`). -/
def mosdepthOut (cfg : MosConfig) (target_name : String) (bed_file : Option String)
    (per_base : Bool) (quantize : Option (String × List String))
    (thresholds : Option (List Int)) : MosdepthCov :=
  let pfx := mosPrefix cfg target_name
  { dist := pfx ++ ".mosdepth.dist.txt"
    per_base := if per_base then some (pfx ++ ".per-base.bed.gz") else none
    regions := if pyTruthy bed_file then some (pfx ++ ".regions.bed.gz") else none
    quantize := if quantize.isSome then some (pfx ++ ".quantized.bed.gz") else none
    thresholds := if thresholds.isSome then some (pfx ++ ".thresholds.bed.gz") else none }

/-- All final artifact paths of one invocation's bundle. -/
def artifactPaths (out : MosdepthCov) : List String :=
  out.dist :: ([out.per_base, out.regions, out.quantize, out.thresholds].filterMap id)

/-- Result of one `run_mosdepth` invocation: the filesystem after it, the
external-tool commands issued, the returned bundle, and whether the call
completed (a failing tool raises, so `ok = false` means the exception
propagated). -/
structure RunResult where
  fs : FS Unit
  cmds : List MosdepthCmd
  out : MosdepthCov
  ok : Bool
deriving DecidableEq

/-- Write a final artifact path with the invocation timestamp. -/
def writeArtifact (now : Nat) (fs : FS Unit) (p : String) : FS Unit :=
  setFS fs p { mtime := now, content := () }

/-- Embedding of `run_mosdepth` (source lines 238-276).  The freshness gate
is `utils.file_uptodate(out.dist, bam_file)`.  The stale path runs mosdepth
inside `file_transaction`, modelled from the spec (§4.2, §7): all outputs go
to a temporary location outside the final-path namespace, and only after the
tool exits successfully are they renamed to the final deterministic paths
(the `shutil.move` calls for the optional outputs, then the transactional
commit of `out.dist`); on tool failure the exception propagates and nothing
in the final namespace changes. -/
def run_mosdepth (cfg : MosConfig) (fs : FS Unit) (target_name : String)
    (bed_file : Option String) (per_base : Bool)
    (quantize : Option (String × List String)) (thresholds : Option (List Int)) : RunResult :=
  let bam_file := mosBam cfg
  let out := mosdepthOut cfg target_name bed_file per_base quantize thresholds
  if file_uptodate fs out.dist bam_file then
    { fs := fs, cmds := [], out := out, ok := true }
  else
    let cmd : MosdepthCmd :=
      { threads := cfg.cores
        filterFlag := 1804
        mapq := if per_base || quantize.isSome then some 1 else none
        noPerBase := !per_base
        byBed := if pyTruthy bed_file then bed_file else none
        quantizeArg := quantize.map (fun q => q.1)
        thresholdArg := thresholds.getD []
        bam := bam_file
        targetName := target_name }
    if cfg.toolOk then
      let fs1 := (artifactPaths out).foldl (writeArtifact cfg.now) fs
      { fs := fs1, cmds := [cmd], out := out, ok := true }
    else
      { fs := fs, cmds := [cmd], out := out, ok := false }

/-- Per-sample facts of `calculate` beyond those of `run_mosdepth`. -/
structure CalcEnv where
  mos : MosConfig
  depth_min : Nat
  variant_regions : Option String
  sv_regions : Option String
  coverage_bed : Option String
deriving DecidableEq

/-- `_create_genome_regions` (source lines 112-123): always (re)writes the
synthesized whole-genome `target-genome.bed` transactionally and returns its
path.  The contig lines written are content the model does not track. -/
def _create_genome_regions (env : CalcEnv) (fs : FS Unit) : String × FS Unit :=
  let p := env.mos.work_dir ++ "/coverage/" ++ env.mos.sample ++ "/target-genome.bed"
  (p, writeArtifact env.mos.now fs p)

/-- The back-compatible callable-file path of `calculate` (source lines
87-89). -/
def callablePath (env : CalcEnv) : String :=
  env.mos.work_dir ++ "/align/" ++ env.mos.sample ++ "/" ++ env.mos.sample ++ "-coverage.callable.bed"

/-- The `cur_depth` dict built from the bundle's `dist`, `regions`,
`thresholds` attributes, keeping truthy values in that order (source lines
100-103). -/
def curDepth (out : MosdepthCov) : List (String × String) :=
  (if !(out.dist = "") then [("dist", out.dist)] else []) ++
  (match out.regions with
   | some r => if !(r = "") then [("regions", r)] else []
   | none => []) ++
  (match out.thresholds with
   | some t => if !(t = "") then [("thresholds", t)] else []
   | none => [])

/-- Loop state of `calculate`'s `for target_name, region_bed, quantize,
thresholds in to_calculate` loop: filesystem, commands issued so far, the
`depth_files` dict and the current `callable_file` binding. -/
structure CalcLoopState where
  fs : FS Unit
  cmds : List MosdepthCmd
  depth_files : List (String × List (String × String))
  callable_file : String
deriving DecidableEq

/-- One iteration of the loop (source lines 96-106): skip targets with a
falsy region bed; otherwise run mosdepth, record the truthy artifact
attributes, and for `variant_regions` rebind `callable_file` to the
quantized output. -/
def calcStep (env : CalcEnv) (st : CalcLoopState)
    (spec : String × Option String × Option (String × List String) × Option (List Int)) :
    CalcLoopState :=
  let (target_name, region_bed, quantize, thresholds) := spec
  if pyTruthy region_bed then
    let r := run_mosdepth env.mos st.fs target_name region_bed false quantize thresholds
    { fs := r.fs
      cmds := st.cmds ++ r.cmds
      depth_files := st.depth_files ++ [(target_name, curDepth r.out)]
      callable_file := if target_name = "variant_regions" then r.out.quantize.getD "" else st.callable_file }
  else st

/-- Modelled from the spec: `utils.splitext_plus` (in `bcbio/utils.py`, not
part of the provided source) splits off the last extension, and one more
when it is a compression suffix. -/
def splitext_plus (s : String) : String × String :=
  match s.splitOn "." with
  | [] => (s, "")
  | [_] => (s, "")
  | parts =>
    let base := String.intercalate "." parts.dropLast
    let ext := "." ++ parts.getLastD ""
    if ext = ".gz" ∨ ext = ".bz2" ∨ ext = ".zip" then
      match parts.dropLast with
      | [] => (base, ext)
      | [_] => (base, ext)
      | parts2 => (String.intercalate "." parts2.dropLast, "." ++ parts2.getLastD "" ++ ext)
    else (base, ext)

/-- `_subset_to_variant_regions` (source lines 125-132): the `-vrsubset.bed`
output, regenerated transactionally when not fresh relative to the callable
file; the intersection content is not tracked. -/
def _subset_to_variant_regions (env : CalcEnv) (fs : FS Unit) (callable_file : String) :
    String × FS Unit :=
  let out_file := (splitext_plus callable_file).1 ++ "-vrsubset.bed"
  if !(file_uptodate fs out_file callable_file) then
    (out_file, writeArtifact env.mos.now fs out_file)
  else (out_file, fs)

/-- Result of `calculate`. -/
structure CalcResult where
  fs : FS Unit
  cmds : List MosdepthCmd
  final_callable : String
  depth_files : List (String × List (String × String))
deriving DecidableEq

/-- The quantize spec for the `variant_regions` target (source line 91). -/
def vrQuantize (env : CalcEnv) : String × List String :=
  ("0:1:" ++ toString env.depth_min ++ ":", ["NO_COVERAGE", "LOW_COVERAGE", "CALLABLE"])

/-- The variant-region resolution of `calculate` (source lines 83-85):
use the merged variant regions when truthy, else synthesize whole-genome
regions. -/
def calcVariantRegions (env : CalcEnv) (fs : FS Unit) : String × FS Unit :=
  if pyTruthy env.variant_regions then (env.variant_regions.getD "", fs)
  else _create_genome_regions env fs

/-- Embedding of `calculate` (source lines 76-110): resolve variant regions
(synthesizing whole-genome regions when absent), and when the callable file
is stale relative to the alignment file run the three fixed targets; else
`depth_files = {}`.  Finally subset the callable file to the variant
regions. -/
def calculate (env : CalcEnv) (fs : FS Unit) (bam_file : String) : CalcResult :=
  let (variant_regions, fs) := calcVariantRegions env fs
  let callable_file := callablePath env
  let st :=
    if !(file_uptodate fs callable_file bam_file) then
      let to_calculate :=
        [("variant_regions", some variant_regions, some (vrQuantize env), (none : Option (List Int))),
         ("sv_regions", env.sv_regions, none, none),
         ("coverage", env.coverage_bed, none, some DEPTH_THRESHOLDS)]
      to_calculate.foldl (calcStep env)
        { fs := fs, cmds := [], depth_files := [], callable_file := callable_file }
    else
      { fs := fs, cmds := [], depth_files := [], callable_file := callable_file }
  let (final_callable, fs2) := _subset_to_variant_regions env st.fs st.callable_file
  { fs := fs2, cmds := st.cmds, final_callable := final_callable, depth_files := st.depth_files }

/-! ## Coverage Cache (`get_average_coverage` and helpers) -/

/-- A YAML cache document: a flat mapping from statistic name to integer
value (the only statistic written here is `avg_coverage`, stored via
`int(...)`). -/
abbrev CacheDoc := List (String × Int)

/-- Lookup in a cache document (`"avg_coverage" in cache` / indexing). -/
def docFind : CacheDoc → String → Option Int
  | [], _ => none
  | (k, v) :: rest, key => if k = key then some v else docFind rest key

/-- Update a cache document entry (`cache["avg_coverage"] = ...`). -/
def docSet : CacheDoc → String → Int → CacheDoc
  | [], key, v => [(key, v)]
  | (k, u) :: rest, key, v => if k = key then (k, v) :: rest else (k, u) :: docSet rest key v

/-- Python `int()` truncation toward zero on a rational. -/
def pyInt (q : ℚ) : Int :=
  q.num.tdiv q.den

/-- Environment of `get_average_coverage`: path pieces, bam getters, the
write timestamp, and the two expensive average computations as oracles.
`computeBed bed` stands for `_average_bed_coverage(bed, ...)` — whose
numeric core is `_average_bed_coverage` above, applied to the region-depth
artifact's parsed rows — and `computeGenome` for
`_average_genome_coverage`, both external to the cache logic under test. -/
structure AvgEnv where
  work_dir : String
  sample : String
  align_bam : Option String
  work_bam : Option String
  now : Nat
  computeBed : String → ℚ
  computeGenome : ℚ

/-- `_get_cache_file` (source lines 134-139):
`work_dir/align/<sample>/<sample>-coverage-<target>-stats.yaml`. -/
def _get_cache_file (env : AvgEnv) (target_name : String) : String :=
  env.work_dir ++ "/align/" ++ env.sample ++ "/" ++ env.sample ++ "-coverage-" ++
    target_name ++ "-stats.yaml"

/-- `_read_cache` (source lines 141-146): filter falsy comparison files; if
the cache file is fresh relative to every remaining one, load it, else
return the empty document.  (When every dependency is falsy and the cache
file is missing, the source's `open` would raise; that configuration is
outside the freshness-guarded uses here, and the guard implies existence
whenever a dependency is present.) -/
def _read_cache (fs : FS CacheDoc) (cache_file : String)
    (reuse_cmp_files : List (Option String)) : CacheDoc :=
  let reuse_cmp_file := reuse_cmp_files.filterMap (fun o => if pyTruthy o then o else none)
  if reuse_cmp_file.all (fun fn => file_uptodate fs cache_file fn) then
    match lookupFS fs cache_file with
    | some e => e.content
    | none => []
  else []

/-- `_write_cache` (source lines 148-150): full rewrite of the cache file. -/
def _write_cache (env : AvgEnv) (fs : FS CacheDoc) (cache : CacheDoc)
    (cache_file : String) : FS CacheDoc :=
  setFS fs cache_file { mtime := env.now, content := cache }

/-- Result of `get_average_coverage`: the returned integer, the filesystem
after the call, and whether the expensive average was recomputed (i.e. the
cache missed). -/
structure AvgResult where
  value : Int
  fs : FS CacheDoc
  recomputed : Bool
deriving DecidableEq

/-- Embedding of `get_average_coverage` (source lines 152-167): resolve the
bam file, read the freshness-gated cache keyed by sample and target, return
the cached `avg_coverage` on a hit; on a miss compute the average (region
path or whole-genome path), store `int(avg_cov)` and return it. -/
def get_average_coverage (env : AvgEnv) (fs : FS CacheDoc) (target_name : String)
    (bed_file : Option String) (bam_file_arg : Option String) : AvgResult :=
  let bam_file := if pyTruthy bam_file_arg then bam_file_arg else pyOr env.align_bam env.work_bam
  let cache_file := _get_cache_file env target_name
  let cache := _read_cache fs cache_file [bam_file, bed_file]
  match docFind cache "avg_coverage" with
  | some v => { value := v, fs := fs, recomputed := false }
  | none =>
    let avg_cov : ℚ :=
      if pyTruthy bed_file then env.computeBed (bed_file.getD "")
      else env.computeGenome
    let cache2 := docSet cache "avg_coverage" (pyInt avg_cov)
    { value := pyInt avg_cov
      fs := _write_cache env fs cache2 cache_file
      recomputed := true }

/-! ## Concrete instances used to exercise the definitions -/

/-- A concrete classifier environment: 41% genome coverage. -/
def exClassifyEnv : ClassifyEnv :=
  { vrs := some "vr.bed"
    callable_file := "call.bed"
    total_coverage := fun _ => 41
    contig_sizes := [100]
    reads := fun o => match o with | none => 1000 | some _ => 995
    sample := "S" }

/-- A concrete classifier environment: 10% genome coverage, 0.5% offtarget. -/
def exAmpliconEnv : ClassifyEnv :=
  { vrs := some "vr.bed"
    callable_file := "call.bed"
    total_coverage := fun _ => 10
    contig_sizes := [100]
    reads := fun o => match o with | none => 1000 | some _ => 995
    sample := "S" }

/-- A distribution file whose `total` rows appear in ascending count order. -/
def exDistAsc : List DistLine :=
  [{ contig := "total", count := 10, pct := 19 / 20 },
   { contig := "total", count := 50000, pct := 1 / 100 }]

/-- The two-row region-depth file of the spec's example: two length-100
regions at depths 10 and 30. -/
def exBedRows : List BedRow :=
  [{ start := 0, stop := 100, depth := 10 },
   { start := 100, stop := 200, depth := 30 }]

/-- A concrete orchestrator configuration with a succeeding tool. -/
def exMosCfg : MosConfig :=
  { work_dir := "wd", sample := "S", align_bam := some "S.bam", work_bam := none
    cores := 4, toolOk := true, now := 5 }

/-- The same configuration with a failing tool. -/
def exMosCfgFail : MosConfig :=
  { work_dir := "wd", sample := "S", align_bam := some "S.bam", work_bam := none
    cores := 4, toolOk := false, now := 5 }

/-- A filesystem holding only the alignment file. -/
def exFS0 : FS Unit := [("S.bam", { mtime := 3, content := () })]

/-- A concrete cache environment. -/
def exAvgEnv : AvgEnv :=
  { work_dir := "wd", sample := "S", align_bam := some "S.bam", work_bam := none
    now := 5, computeBed := fun _ => 20, computeGenome := 7 }

/-- A cache filesystem holding the alignment and region files, no cache. -/
def exAvgFS : FS CacheDoc :=
  [("S.bam", { mtime := 3, content := [] }), ("vr.bed", { mtime := 2, content := [] })]

/-- A concrete calc environment whose callable artifact is fresh. -/
def exCalcEnv : CalcEnv :=
  { mos := exMosCfg, depth_min := 4, variant_regions := some "vr.bed"
    sv_regions := none, coverage_bed := some "cov.bed" }

/-- A filesystem where `exCalcEnv`'s callable artifact is fresh relative to
the alignment file. -/
def exCalcFS : FS Unit :=
  [("S.bam", { mtime := 3, content := () }),
   ("wd/align/S/S-coverage.callable.bed", { mtime := 4, content := () })]

/-! ## Helper lemmas about the filesystem model -/

theorem lookupFS_setFS_self {α : Type} (fs : FS α) (p : String) (e : FileEnt α) :
    lookupFS (setFS fs p e) p = some e := by
  induction fs with
  | nil => simp [setFS, lookupFS]
  | cons hd tl ih =>
    obtain ⟨q, u⟩ := hd
    by_cases h : q = p <;> simp [setFS, lookupFS, h, ih]

theorem lookupFS_setFS_ne {α : Type} (fs : FS α) (p q : String) (e : FileEnt α)
    (h : p ≠ q) : lookupFS (setFS fs p e) q = lookupFS fs q := by
  induction fs with
  | nil => simp [setFS, lookupFS, h]
  | cons hd tl ih =>
    obtain ⟨r, u⟩ := hd
    by_cases hr : r = p
    · subst hr
      simp [setFS, lookupFS, h]
    · simp [setFS, lookupFS, hr, ih]

theorem lookupFS_writeFold_not_mem (now : Nat) (fs : FS Unit) (ps : List String)
    (q : String) (h : q ∉ ps) :
    lookupFS (ps.foldl (writeArtifact now) fs) q = lookupFS fs q := by
  induction ps generalizing fs with
  | nil => rfl
  | cons p rest ih =>
    simp only [List.mem_cons, not_or] at h
    simp only [List.foldl_cons]
    rw [ih _ h.2, writeArtifact, lookupFS_setFS_ne _ _ _ _ (fun hpq => h.1 hpq.symm)]

theorem lookupFS_writeFold_mem (now : Nat) (fs : FS Unit) (ps : List String)
    (p : String) (h : p ∈ ps) :
    lookupFS (ps.foldl (writeArtifact now) fs) p = some { mtime := now, content := () } := by
  induction ps generalizing fs with
  | nil => cases h
  | cons q rest ih =>
    by_cases hm : p ∈ rest
    · simpa using ih (writeArtifact now fs q) hm
    · have hpq : p = q := by
        rcases List.mem_cons.mp h with h1 | h2
        · exact h1
        · exact absurd h2 hm
      subst hpq
      simp only [List.foldl_cons]
      rw [lookupFS_writeFold_not_mem now _ rest p hm, writeArtifact, lookupFS_setFS_self]

theorem percentileStep_eq (mn mx : Int) (sample : String) (acc : List Row)
    (st : ScanState) (l : DistLine) :
    percentileStep mn mx sample (acc, st) l = (acc ++ rowsOf mn mx sample l, some (lineState l)) := by
  by_cases hc : l.contig = "total"
  · by_cases hr : mn ≤ l.count ∧ l.count ≤ mx
    · simp [percentileStep, rowsOf, lineState, hc, hr]
    · simp [percentileStep, rowsOf, lineState, hc, hr]
  · simp [percentileStep, rowsOf, lineState, hc]

theorem percentileScan_spec (mn mx : Int) (sample : String) (lines : List DistLine)
    (acc : List Row) (st : ScanState) :
    lines.foldl (percentileStep mn mx sample) (acc, st) =
      (acc ++ inRangeRows mn mx sample lines,
       match lines.getLast? with
       | none => st
       | some l => some (lineState l)) := by
  induction lines generalizing acc st with
  | nil => simp [inRangeRows]
  | cons l rest ih =>
    simp only [List.foldl_cons, percentileStep_eq]
    rw [ih]
    cases rest with
    | nil => simp [inRangeRows]
    | cons r rest2 =>
      cases hg : (r :: rest2).getLast? with
      | none =>
        rw [List.getLast?_eq_none_iff] at hg
        cases hg
      | some lastLine =>
        simp [inRangeRows, List.getLast?_cons_cons, List.append_assoc, hg]

theorem docFind_docSet_self (d : CacheDoc) (k : String) (v : Int) :
    docFind (docSet d k v) k = some v := by
  induction d with
  | nil => simp [docSet, docFind]
  | cons hd tl ih =>
    obtain ⟨q, u⟩ := hd
    by_cases h : q = k <;> simp [docSet, docFind, h, ih]

/-! ## Claim theorems -/

/-- C1: for every context whose coverage_interval is unset, `assign_interval`
labels the sample by the decision table: callable/total > 0.40 gives
"genome" regardless of offtarget; else no variant-region file gives
"regional"; else "regional" iff offtarget_pct > 0.01, "amplicon" otherwise. -/
theorem assign_interval_decision_table {α : Type} (env : ClassifyEnv) (data : CovData α)
    (hunset : pyTruthy data.coverage_interval = false)
    (_htot : 0 < totalSize env) :
    (GENOME_COV_THRESH < genomeCovPct env →
      (assign_interval env data).data.coverage_interval = some "genome") ∧
    (genomeCovPct env ≤ GENOME_COV_THRESH → pyTruthy env.vrs = false →
      (assign_interval env data).data.coverage_interval = some "regional") ∧
    (genomeCovPct env ≤ GENOME_COV_THRESH → pyTruthy env.vrs = true →
      (OFFTARGET_THRESH < _count_offtarget (env.reads none) (env.reads (some (offtargetBed env))) →
        (assign_interval env data).data.coverage_interval = some "regional") ∧
      (_count_offtarget (env.reads none) (env.reads (some (offtargetBed env))) ≤ OFFTARGET_THRESH →
        (assign_interval env data).data.coverage_interval = some "amplicon")) := by
  refine ⟨fun hg => ?_, fun hle hv => ?_, fun hle hv => ⟨fun hoff => ?_, fun hoff => ?_⟩⟩ <;>
    simp only [assign_interval, hunset, Bool.not_false, if_true] <;>
    simp only [gt_iff_lt]
  · rw [if_pos hg]
  · rw [if_neg (not_lt.mpr hle), hv]
    simp
  · rw [if_neg (not_lt.mpr hle), hv]
    simp [hoff]
  · rw [if_neg (not_lt.mpr hle), hv]
    simp [not_lt.mpr hoff, hoff.not_lt]

/-- C1 witness: at `exClassifyEnv` (41% coverage), the unset sample is
classified "genome". -/
theorem assign_interval_decision_table_witness :
    pyTruthy (none : Option String) = false ∧ 0 < totalSize exClassifyEnv ∧
    GENOME_COV_THRESH < genomeCovPct exClassifyEnv ∧
    (assign_interval exClassifyEnv ({ coverage_interval := none, rest := () } : CovData Unit)).data.coverage_interval = some "genome" :=
  ⟨by decide, by decide,
    by norm_num [GENOME_COV_THRESH, genomeCovPct, callableSize, totalSize, exClassifyEnv, pyTruthy],
    (assign_interval_decision_table exClassifyEnv
      { coverage_interval := none, rest := () } (by decide) (by decide)).1
      (by norm_num [GENOME_COV_THRESH, genomeCovPct, callableSize, totalSize, exClassifyEnv, pyTruthy])⟩

/-- C9: when `coverage_interval` is already set, `assign_interval` is a
no-op: the data is returned with every field unchanged, nothing is logged
and no read counting happens. -/
theorem assign_interval_noop {α : Type} (env : ClassifyEnv) (data : CovData α)
    (hset : pyTruthy data.coverage_interval = true) :
    assign_interval env data = { data := data, logs := [], counted_reads := false } := by
  simp [assign_interval, hset]

/-- C9 witness: a sample already labelled "genome" passes through untouched. -/
theorem assign_interval_noop_witness :
    pyTruthy (some "genome") = true ∧
    assign_interval exClassifyEnv ({ coverage_interval := some "genome", rest := () } : CovData Unit) =
      { data := { coverage_interval := some "genome", rest := () }, logs := [], counted_reads := false } :=
  ⟨by decide, assign_interval_noop exClassifyEnv _ (by decide)⟩

/-- C5: with `ontarget ≤ mapped_unique`, `_count_offtarget` equals
`(mapped_unique - ontarget) / mapped_unique` for positive `mapped_unique`,
equals `0` for `mapped_unique = 0`, and always lies in `[0, 1]`. -/
theorem count_offtarget_safe (mapped_unique ontarget : Nat) (h : ontarget ≤ mapped_unique) :
    (mapped_unique = 0 → _count_offtarget mapped_unique ontarget = 0) ∧
    (0 < mapped_unique →
      _count_offtarget mapped_unique ontarget =
        ((mapped_unique : ℚ) - (ontarget : ℚ)) / (mapped_unique : ℚ)) ∧
    0 ≤ _count_offtarget mapped_unique ontarget ∧
    _count_offtarget mapped_unique ontarget ≤ 1 := by
  rcases Nat.eq_zero_or_pos mapped_unique with hz | hp
  · subst hz
    refine ⟨fun _ => rfl, fun h0 => absurd h0 (lt_irrefl 0), ?_, ?_⟩ <;> simp [_count_offtarget]
  · have hne : mapped_unique ≠ 0 := Nat.pos_iff_ne_zero.mp hp
    have hq : (0 : ℚ) < (mapped_unique : ℚ) := by exact_mod_cast hp
    have hsub : (0 : ℚ) ≤ (mapped_unique : ℚ) - (ontarget : ℚ) := by
      have : (ontarget : ℚ) ≤ (mapped_unique : ℚ) := by exact_mod_cast h
      linarith
    refine ⟨fun h0 => absurd h0 hne, fun _ => by simp [_count_offtarget, hne], ?_, ?_⟩
    · simp only [_count_offtarget, if_pos hne]
      exact div_nonneg hsub hq.le
    · simp only [_count_offtarget, if_pos hne]
      rw [div_le_one hq]
      have : (0 : ℚ) ≤ (ontarget : ℚ) := by positivity
      linarith

/-- C5 witness: 1000 mapped, 995 on target gives 5/1000 ∈ [0,1]. -/
theorem count_offtarget_safe_witness :
    (995 : Nat) ≤ 1000 ∧ _count_offtarget 1000 995 = ((1000 : ℚ) - 995) / 1000 ∧
    0 ≤ _count_offtarget 1000 995 ∧ _count_offtarget 1000 995 ≤ 1 :=
  ⟨by decide, (count_offtarget_safe 1000 995 (by decide)).2.1 (by decide),
    (count_offtarget_safe 1000 995 (by decide)).2.2.1,
    (count_offtarget_safe 1000 995 (by decide)).2.2.2⟩

/-- C6: over well-formed region rows (`start ≤ end`), the region-based
average coverage equals `sum(depth_i * (end_i - start_i)) / sum(end_i -
start_i)` (with the convention that the quotient is 0 when the total length
is 0, matching the source's explicit guard). -/
theorem average_bed_coverage_formula (rows : List BedRow)
    (h : ∀ r ∈ rows, r.start ≤ r.stop) :
    _average_bed_coverage rows =
      (rows.map (fun r => r.depth * ((r.stop - r.start : Int) : ℚ))).sum /
        (((rows.foldl (fun acc r => acc + (r.stop - r.start)) 0 : Int)) : ℚ) ∧
    (rows.foldl (fun acc r => acc + (r.stop - r.start)) 0 = (0 : Int) →
      _average_bed_coverage rows = 0) := by
  have hfold : ∀ (l : List BedRow) (init : Int),
      l.foldl (fun acc r => acc + (r.stop - r.start)) init =
        init + (l.map (fun r => r.stop - r.start)).sum := by
    intro l
    induction l with
    | nil => intro init; simp
    | cons r rest ih =>
      intro init
      simp only [List.foldl_cons, List.map_cons, List.sum_cons, ih]
      ring
  have hnonneg : (0 : Int) ≤ rows.foldl (fun acc r => acc + (r.stop - r.start)) 0 := by
    rw [hfold, zero_add]
    apply List.sum_nonneg
    intro x hx
    rcases List.mem_map.mp hx with ⟨r, hr, rfl⟩
    have := h r hr
    omega
  constructor
  · rcases lt_or_eq_of_le hnonneg with hpos | hzero
    · simp only [_average_bed_coverage, if_pos hpos]
    · rw [_average_bed_coverage]
      simp only [← hzero, lt_irrefl, if_false]
      norm_num
  · intro hz
    simp [_average_bed_coverage, hz]

/-- C6 witness: two length-100 regions at depths 10 and 30 average to 20. -/
theorem average_bed_coverage_formula_witness :
    _average_bed_coverage exBedRows =
      (exBedRows.map (fun r => r.depth * ((r.stop - r.start : Int) : ℚ))).sum /
        (((exBedRows.foldl (fun acc r => acc + (r.stop - r.start)) 0 : Int)) : ℚ) ∧
    _average_bed_coverage exBedRows = 20 :=
  ⟨(average_bed_coverage_formula exBedRows (by decide)).1,
    by norm_num [_average_bed_coverage, exBedRows]⟩

/-- C8 counterexample: a concrete invocation issues the read-exclusion flag
1804, which is NOT the OR of only unmapped (0x4), secondary (0x100), QC-fail
(0x200) and duplicate (0x400) — that OR is 1796 — because 1804 also carries
the mate-unmapped bit 0x8. -/
theorem mosdepth_filter_flag_counterexample :
    (run_mosdepth exMosCfg exFS0 "coverage" (some "cov.bed") false none
        (some DEPTH_THRESHOLDS)).cmds.map MosdepthCmd.filterFlag = [1804] ∧
    (1804 : Nat) ≠ (4 ||| 256 ||| 512 ||| 1024) ∧
    (1804 : Nat) &&& 8 ≠ 0 := by
  refine ⟨?_, by decide, by decide⟩
  decide

/-- C8 (amended): every mosdepth invocation passes the composite
read-exclusion flag equal to the bitwise OR of the unmapped (0x4),
mate-unmapped (0x8), secondary (0x100), QC-fail (0x200) and duplicate
(0x400) flags, i.e. 1804, and no other bits. -/
theorem mosdepth_filter_flag_amended (cfg : MosConfig) (fs : FS Unit)
    (target_name : String) (bed_file : Option String) (per_base : Bool)
    (quantize : Option (String × List String)) (thresholds : Option (List Int))
    (cmd : MosdepthCmd)
    (hmem : cmd ∈ (run_mosdepth cfg fs target_name bed_file per_base quantize thresholds).cmds) :
    cmd.filterFlag = (4 ||| 8 ||| 256 ||| 512 ||| 1024) := by
  simp only [run_mosdepth] at hmem
  split at hmem
  · simp at hmem
  · split at hmem <;>
    · simp only [List.mem_singleton] at hmem
      subst hmem
      show (1804 : Nat) = 4 ||| 8 ||| 256 ||| 512 ||| 1024
      decide

/-- C8 witness: the concrete issued command carries flag 1804 = 0x4 OR 0x8
OR 0x100 OR 0x200 OR 0x400. -/
theorem mosdepth_filter_flag_amended_witness :
    ({ threads := 4, filterFlag := 1804, mapq := none, noPerBase := true
       byBed := some "cov.bed", quantizeArg := none, thresholdArg := DEPTH_THRESHOLDS
       bam := "S.bam", targetName := "coverage" } : MosdepthCmd) ∈
      (run_mosdepth exMosCfg exFS0 "coverage" (some "cov.bed") false none
        (some DEPTH_THRESHOLDS)).cmds ∧
    MosdepthCmd.filterFlag
      { threads := 4, filterFlag := 1804, mapq := none, noPerBase := true
        byBed := some "cov.bed", quantizeArg := none, thresholdArg := DEPTH_THRESHOLDS
        bam := "S.bam", targetName := "coverage" } = (4 ||| 8 ||| 256 ||| 512 ||| 1024) :=
  ⟨by decide,
    mosdepth_filter_flag_amended exMosCfg exFS0 "coverage" (some "cov.bed") false none
      (some DEPTH_THRESHOLDS) _ (by decide)⟩

/-- C3: when the external depth tool fails before completion (and it was
actually invoked, i.e. the distribution artifact was stale), no final
deterministic artifact path is created or modified — the filesystem at the
final paths is exactly what it was — and the failure propagates. -/
theorem run_mosdepth_atomic (cfg : MosConfig) (fs : FS Unit) (target_name : String)
    (bed_file : Option String) (per_base : Bool)
    (quantize : Option (String × List String)) (thresholds : Option (List Int))
    (hfail : cfg.toolOk = false)
    (hstale : file_uptodate fs
      (mosdepthOut cfg target_name bed_file per_base quantize thresholds).dist
      (mosBam cfg) = false) :
    (run_mosdepth cfg fs target_name bed_file per_base quantize thresholds).fs = fs ∧
    (run_mosdepth cfg fs target_name bed_file per_base quantize thresholds).ok = false ∧
    (run_mosdepth cfg fs target_name bed_file per_base quantize thresholds).cmds ≠ [] := by
  simp [run_mosdepth, hstale, hfail]

/-- C3 witness: with a failing tool and a stale distribution artifact, the
concrete filesystem is untouched. -/
theorem run_mosdepth_atomic_witness :
    exMosCfgFail.toolOk = false ∧
    file_uptodate exFS0
      (mosdepthOut exMosCfgFail "coverage" (some "cov.bed") false none
        (some DEPTH_THRESHOLDS)).dist (mosBam exMosCfgFail) = false ∧
    (run_mosdepth exMosCfgFail exFS0 "coverage" (some "cov.bed") false none
      (some DEPTH_THRESHOLDS)).fs = exFS0 ∧
    (run_mosdepth exMosCfgFail exFS0 "coverage" (some "cov.bed") false none
      (some DEPTH_THRESHOLDS)).ok = false :=
  ⟨by decide, by decide,
    (run_mosdepth_atomic exMosCfgFail exFS0 "coverage" (some "cov.bed") false none
      (some DEPTH_THRESHOLDS) (by decide) (by decide)).1,
    (run_mosdepth_atomic exMosCfgFail exFS0 "coverage" (some "cov.bed") false none
      (some DEPTH_THRESHOLDS) (by decide) (by decide)).2.1⟩

/-- C4: after a successful run, a second `run_mosdepth` with unchanged
inputs (the alignment file untouched and no newer than the first run's
write time) issues no external-tool invocation and leaves the filesystem —
hence every artifact modification time — unchanged. -/
theorem run_mosdepth_idempotent (cfg : MosConfig) (fs : FS Unit) (target_name : String)
    (bed_file : Option String) (per_base : Bool)
    (quantize : Option (String × List String)) (thresholds : Option (List Int))
    (eb : FileEnt Unit)
    (hok : cfg.toolOk = true)
    (hbam : lookupFS fs (mosBam cfg) = some eb)
    (hmt : eb.mtime ≤ cfg.now)
    (hnb : mosBam cfg ∉ artifactPaths (mosdepthOut cfg target_name bed_file per_base quantize thresholds)) :
    (run_mosdepth cfg
      (run_mosdepth cfg fs target_name bed_file per_base quantize thresholds).fs
      target_name bed_file per_base quantize thresholds).cmds = [] ∧
    (run_mosdepth cfg
      (run_mosdepth cfg fs target_name bed_file per_base quantize thresholds).fs
      target_name bed_file per_base quantize thresholds).fs =
      (run_mosdepth cfg fs target_name bed_file per_base quantize thresholds).fs := by
  by_cases hf : file_uptodate fs
      (mosdepthOut cfg target_name bed_file per_base quantize thresholds).dist (mosBam cfg)
  · simp [run_mosdepth, hf]
  · have h1 : (run_mosdepth cfg fs target_name bed_file per_base quantize thresholds).fs
        = (artifactPaths (mosdepthOut cfg target_name bed_file per_base quantize thresholds)).foldl
            (writeArtifact cfg.now) fs := by
      simp [run_mosdepth, hf, hok]
    have hd : lookupFS
        ((artifactPaths (mosdepthOut cfg target_name bed_file per_base quantize thresholds)).foldl
          (writeArtifact cfg.now) fs)
        (mosdepthOut cfg target_name bed_file per_base quantize thresholds).dist
        = some { mtime := cfg.now, content := () } :=
      lookupFS_writeFold_mem _ _ _ _ (by simp [artifactPaths])
    have hb : lookupFS
        ((artifactPaths (mosdepthOut cfg target_name bed_file per_base quantize thresholds)).foldl
          (writeArtifact cfg.now) fs) (mosBam cfg)
        = lookupFS fs (mosBam cfg) :=
      lookupFS_writeFold_not_mem _ _ _ _ hnb
    have hf2 : file_uptodate
        ((artifactPaths (mosdepthOut cfg target_name bed_file per_base quantize thresholds)).foldl
          (writeArtifact cfg.now) fs)
        (mosdepthOut cfg target_name bed_file per_base quantize thresholds).dist
        (mosBam cfg) = true := by
      rw [file_uptodate, hd, hb, hbam]
      simpa using hmt
    rw [h1]
    constructor
    · simp [run_mosdepth, hf2]
    · simp [run_mosdepth, hf2]

/-- C4 witness: a concrete first run followed by a second run with
unchanged inputs: the second issues nothing and changes nothing. -/
theorem run_mosdepth_idempotent_witness :
    exMosCfg.toolOk = true ∧
    lookupFS exFS0 (mosBam exMosCfg) = some { mtime := 3, content := () } ∧
    (3 : Nat) ≤ exMosCfg.now ∧
    (run_mosdepth exMosCfg
      (run_mosdepth exMosCfg exFS0 "coverage" (some "cov.bed") false none
        (some DEPTH_THRESHOLDS)).fs
      "coverage" (some "cov.bed") false none (some DEPTH_THRESHOLDS)).cmds = [] ∧
    (run_mosdepth exMosCfg
      (run_mosdepth exMosCfg exFS0 "coverage" (some "cov.bed") false none
        (some DEPTH_THRESHOLDS)).fs
      "coverage" (some "cov.bed") false none (some DEPTH_THRESHOLDS)).fs =
      (run_mosdepth exMosCfg exFS0 "coverage" (some "cov.bed") false none
        (some DEPTH_THRESHOLDS)).fs :=
  ⟨by decide, by decide, by decide,
    (run_mosdepth_idempotent exMosCfg exFS0 "coverage" (some "cov.bed") false none
      (some DEPTH_THRESHOLDS) { mtime := 3, content := () } (by decide) (by decide)
      (by decide) (by decide)).1,
    (run_mosdepth_idempotent exMosCfg exFS0 "coverage" (some "cov.bed") false none
      (some DEPTH_THRESHOLDS) { mtime := 3, content := () } (by decide) (by decide)
      (by decide) (by decide)).2⟩

/-- C10: when the callable artifact is already fresh relative to the
alignment file (in the state the check reads, i.e. after variant-region
resolution), `calculate` runs no mosdepth invocation and returns an empty
depth-file mapping; only the final subsetted callable path is reported. -/
theorem calculate_fresh_empty (env : CalcEnv) (fs : FS Unit) (bam_file : String)
    (hfresh : file_uptodate (calcVariantRegions env fs).2 (callablePath env) bam_file = true) :
    (calculate env fs bam_file).depth_files = [] ∧
    (calculate env fs bam_file).cmds = [] ∧
    (calculate env fs bam_file).final_callable =
      (splitext_plus (callablePath env)).1 ++ "-vrsubset.bed" := by
  rcases hcv : calcVariantRegions env fs with ⟨vr, fs1⟩
  rw [hcv] at hfresh
  simp only at hfresh
  simp only [calculate, hcv, hfresh, Bool.not_true, Bool.false_eq_true, if_false]
  refine ⟨trivial, trivial, ?_⟩
  simp only [_subset_to_variant_regions]
  split <;> rfl

/-- C10 witness: with a fresh callable artifact, the concrete `calculate`
returns no depth files and no commands. -/
theorem calculate_fresh_empty_witness :
    file_uptodate (calcVariantRegions exCalcEnv exCalcFS).2 (callablePath exCalcEnv) "S.bam" = true ∧
    (calculate exCalcEnv exCalcFS "S.bam").depth_files = [] ∧
    (calculate exCalcEnv exCalcFS "S.bam").cmds = [] :=
  ⟨by decide,
    (calculate_fresh_empty exCalcEnv exCalcFS "S.bam" (by decide)).1,
    (calculate_fresh_empty exCalcEnv exCalcFS "S.bam" (by decide)).2.1⟩

/-- C7: with the alignment file (and region file, when given) present,
unmodified and no newer than the cache write time, a second
`get_average_coverage` call returns the identical truncated integer from
the cache, without recomputing and without touching the filesystem. -/
theorem get_average_coverage_cache_roundtrip (env : AvgEnv) (fs : FS CacheDoc)
    (target_name : String) (bed_file : Option String) (bp : String) (ebam : FileEnt CacheDoc)
    (hbp : pyOr env.align_bam env.work_bam = some bp)
    (hbt : ¬ bp = "")
    (hbam : lookupFS fs bp = some ebam)
    (hbmt : ebam.mtime ≤ env.now)
    (hcne : ¬ _get_cache_file env target_name = bp)
    (hbed : ∀ s, bed_file = some s → ¬ s = "" →
      ∃ e, lookupFS fs s = some e ∧ e.mtime ≤ env.now ∧ ¬ _get_cache_file env target_name = s) :
    (get_average_coverage env (get_average_coverage env fs target_name bed_file none).fs
        target_name bed_file none).value
      = (get_average_coverage env fs target_name bed_file none).value ∧
    (get_average_coverage env (get_average_coverage env fs target_name bed_file none).fs
        target_name bed_file none).recomputed = false ∧
    (get_average_coverage env (get_average_coverage env fs target_name bed_file none).fs
        target_name bed_file none).fs
      = (get_average_coverage env fs target_name bed_file none).fs := by
  have hbamres : (if pyTruthy (none : Option String) then (none : Option String)
      else pyOr env.align_bam env.work_bam) = some bp := by
    simp [pyTruthy, hbp]
  rcases hfind : docFind (_read_cache fs (_get_cache_file env target_name) [some bp, bed_file]) "avg_coverage" with _ | v
  · -- first call misses the cache, computes and writes; the second call hits.
    have h1 : get_average_coverage env fs target_name bed_file none =
        { value := pyInt (if pyTruthy bed_file then env.computeBed (bed_file.getD "")
            else env.computeGenome)
          fs := _write_cache env fs
            (docSet (_read_cache fs (_get_cache_file env target_name)
              [some bp, bed_file]) "avg_coverage"
              (pyInt (if pyTruthy bed_file then env.computeBed (bed_file.getD "")
                else env.computeGenome)))
            (_get_cache_file env target_name)
          recomputed := true } := by
      rw [get_average_coverage, hbamres, hfind]
    -- freshness of the just-written cache file relative to both dependencies
    have hup : ∀ fn ∈ ([some bp, bed_file].filterMap
        (fun o => if pyTruthy o then o else none)),
        file_uptodate (_write_cache env fs
          (docSet (_read_cache fs (_get_cache_file env target_name)
            [some bp, bed_file]) "avg_coverage"
            (pyInt (if pyTruthy bed_file then env.computeBed (bed_file.getD "")
              else env.computeGenome)))
          (_get_cache_file env target_name)) (_get_cache_file env target_name) fn = true := by
      intro fn hfn
      have hself := lookupFS_setFS_self fs (_get_cache_file env target_name)
        ({ mtime := env.now
           content := docSet (_read_cache fs (_get_cache_file env target_name)
             [some bp, bed_file]) "avg_coverage"
             (pyInt (if pyTruthy bed_file then env.computeBed (bed_file.getD "")
               else env.computeGenome)) } : FileEnt CacheDoc)
      have hmem : fn = bp ∨ (bed_file = some fn ∧ ¬ fn = "") := by
        rcases bed_file with _ | s
        · simp [pyTruthy, hbt] at hfn
          exact Or.inl hfn
        · by_cases hs : s = ""
          · simp [pyTruthy, hbt, hs] at hfn
            exact Or.inl hfn
          · simp [pyTruthy, hbt, hs] at hfn
            rcases hfn with h | h
            · exact Or.inl h
            · exact Or.inr ⟨by rw [h], by rw [h]; exact hs⟩
      rcases hmem with rfl | ⟨hfs, hfe⟩
      · rw [file_uptodate, _write_cache, hself, lookupFS_setFS_ne _ _ _ _ hcne, hbam]
        simpa using hbmt
      · rcases hbed fn hfs hfe with ⟨e, he1, he2, he3⟩
        rw [file_uptodate, _write_cache, hself, lookupFS_setFS_ne _ _ _ _ he3, he1]
        simpa using he2
    have hread2 : _read_cache (_write_cache env fs
        (docSet (_read_cache fs (_get_cache_file env target_name)
          [some bp, bed_file]) "avg_coverage"
          (pyInt (if pyTruthy bed_file then env.computeBed (bed_file.getD "")
            else env.computeGenome)))
        (_get_cache_file env target_name)) (_get_cache_file env target_name)
        [some bp, bed_file]
        = docSet (_read_cache fs (_get_cache_file env target_name)
            [some bp, bed_file]) "avg_coverage"
            (pyInt (if pyTruthy bed_file then env.computeBed (bed_file.getD "")
              else env.computeGenome)) := by
      rw [_read_cache]
      rw [if_pos (by
        rw [List.all_eq_true]
        intro fn hfn
        exact hup fn hfn)]
      rw [_write_cache, lookupFS_setFS_self]
    rw [h1]
    dsimp only
    rw [get_average_coverage, hbamres, hread2, docFind_docSet_self]
    exact ⟨rfl, rfl, rfl⟩
  · -- first call hits the cache and leaves the filesystem unchanged.
    have h1 : get_average_coverage env fs target_name bed_file none =
        { value := v, fs := fs, recomputed := false } := by
      rw [get_average_coverage, hbamres, hfind]
    rw [h1]
    dsimp only
    rw [get_average_coverage, hbamres, hfind]
    exact ⟨rfl, rfl, rfl⟩

/-- C7 witness: a concrete miss-then-hit round trip returning the same
integer without recomputation. -/
theorem get_average_coverage_cache_roundtrip_witness :
    pyOr exAvgEnv.align_bam exAvgEnv.work_bam = some "S.bam" ∧
    lookupFS exAvgFS "S.bam" = some { mtime := 3, content := [] } ∧
    (get_average_coverage exAvgEnv
      (get_average_coverage exAvgEnv exAvgFS "avg" (some "vr.bed") none).fs
      "avg" (some "vr.bed") none).value
      = (get_average_coverage exAvgEnv exAvgFS "avg" (some "vr.bed") none).value ∧
    (get_average_coverage exAvgEnv
      (get_average_coverage exAvgEnv exAvgFS "avg" (some "vr.bed") none).fs
      "avg" (some "vr.bed") none).recomputed = false ∧
    (get_average_coverage exAvgEnv
      (get_average_coverage exAvgEnv exAvgFS "avg" (some "vr.bed") none).fs
      "avg" (some "vr.bed") none).fs
      = (get_average_coverage exAvgEnv exAvgFS "avg" (some "vr.bed") none).fs :=
  ⟨by decide, by decide,
    (get_average_coverage_cache_roundtrip exAvgEnv exAvgFS "avg" (some "vr.bed") "S.bam"
      { mtime := 3, content := [] } (by decide) (by decide) (by decide) (by decide) (by decide)
      (fun s hs hne => ⟨{ mtime := 2, content := [] },
        by rw [Option.some_inj] at hs; rw [← hs]; decide,
        by decide,
        by rw [Option.some_inj] at hs; rw [← hs]; decide⟩)).1,
    (get_average_coverage_cache_roundtrip exAvgEnv exAvgFS "avg" (some "vr.bed") "S.bam"
      { mtime := 3, content := [] } (by decide) (by decide) (by decide) (by decide) (by decide)
      (fun s hs hne => ⟨{ mtime := 2, content := [] },
        by rw [Option.some_inj] at hs; rw [← hs]; decide,
        by decide,
        by rw [Option.some_inj] at hs; rw [← hs]; decide⟩)).2.1,
    (get_average_coverage_cache_roundtrip exAvgEnv exAvgFS "avg" (some "vr.bed") "S.bam"
      { mtime := 3, content := [] } (by decide) (by decide) (by decide) (by decide) (by decide)
      (fun s hs hne => ⟨{ mtime := 2, content := [] },
        by rw [Option.some_inj] at hs; rw [← hs]; decide,
        by decide,
        by rw [Option.some_inj] at hs; rw [← hs]; decide⟩)).2.2⟩

/-- C2 counterexample: for the ascending-order distribution `total 10 0.95`,
`total 50000 0.01` and the fixed cutoff ladder, the extra floor row
`percentage1` carries the pct of the LAST row (1.0, from the count=50000
line), not the pct of the smallest-count row (95.0) as the claim states: the
row the claim requires is absent from the output. -/
theorem calculate_percentiles_counterexample :
    calculate_percentiles_rows exDistAsc DEPTH_THRESHOLDS "S" =
      Except.ok [{ label := "percentage10", pct := 95, sample := "S" },
                 { label := "percentage50000", pct := 1, sample := "S" },
                 { label := "percentage1", pct := 1, sample := "S" }] ∧
    ({ label := "percentage1", pct := 95, sample := "S" } : Row) ∉
      [({ label := "percentage10", pct := 95, sample := "S" } : Row),
       { label := "percentage50000", pct := 1, sample := "S" },
       { label := "percentage1", pct := 1, sample := "S" }] := by
  constructor
  · have h95 : pyRound1 ((19 / 20 : ℚ) * 100) = 95 := by norm_num [pyRound1]
    have h95b : pyRound1 (95 : ℚ) = 95 := by norm_num [pyRound1]
    have h1 : pyRound1 ((1 / 100 : ℚ) * 100) = 1 := by norm_num [pyRound1]
    have h1b : pyRound1 (1 : ℚ) = 1 := by norm_num [pyRound1]
    simp only [calculate_percentiles_rows, DEPTH_THRESHOLDS, exDistAsc]
    rw [percentileScan_spec]
    simp [inRangeRows, rowsOf, lineState, h95, h95b, h1, h1b]
    constructor <;> decide
  · decide

/-- C2 (amended): the scan emits one row per in-range `total` row; the
extra floor row is governed by the file's LAST line — which must be a
`total` row, otherwise the source raises — and is emitted when that last
line's count exceeds `min(cutoffs)`, carrying that last line's formatted
pct (for the external tool's descending-order files whose final line is the
lowest-count `total` row the two notions coincide, but not in general). -/
theorem calculate_percentiles_amended (lines : List DistLine) (cutoffs : List Int)
    (sample : String) :
    calculate_percentiles_rows lines cutoffs sample = percentilesAmendedSpec lines cutoffs sample := by
  cases cutoffs with
  | nil => rfl
  | cons c cs =>
    simp only [calculate_percentiles_rows, percentilesAmendedSpec]
    rw [percentileScan_spec]
    cases hl : lines.getLast? with
    | none => simp
    | some last =>
      by_cases hc : last.contig = "total"
      · simp [lineState, hc]
      · simp [lineState, hc]

end Coverage
